import Mathlib

/-!
# Verification of the modal-component focus-trap and portal core

Shallow embedding of `src/hooks/use-focus-trap.ts` (Focus Scope) and of the
Portal component (Render Target) of the `modal-component` repository, with
theorems settling the spec claims about them.

## Modelling choices

* A DOM element is identified by a `Nat` id (standing for its reference
  identity) and carries the attributes the focusable-element CSS selector
  inspects: tag name, presence of an `href` attribute, and an optional
  explicit `tabindex` value.
* A container's descendants are a `List Elem` in document order;
  `querySelectorAll` over the container is a `filter` of that list (it
  preserves document order, as `querySelectorAll` does).
* Document focus state is an optional focused-element id together with the
  set (list) of element ids currently attached to the document.
  `HTMLElement.focus()` on an element that is not in the document is a
  silent no-op, as in browsers; on an attached element it moves focus.
* The React effect of `useFocusTrap` is split into its setup
  (`useFocusTrapSetup`, the effect body) and its cleanup
  (`useFocusTrapCleanup`, the returned closure).  Result records carry
  ghost observables (`listenerAttached`, `restoreCallMade`, `threw`) that
  record which source statements executed; they are derived from the
  branch actually taken, never invented.
* In JS, `document.activeElement === firstFocusable` compares references;
  `activeElement` is an element or `null`, never `undefined`, so when the
  focusable set is empty (`firstFocusable` is `undefined`) the comparison
  is always false.  `refEq` mirrors this.
-/

/-- A DOM element as seen by the focus-trap selector: identity plus the
attributes the selector `button, [href], input, select, textarea,
[tabindex]:not([tabindex="-1"])` inspects. -/
structure Elem where
  id : Nat
  tag : String
  hasHref : Bool
  tabindex : Option Int
deriving Repr, DecidableEq

/-- Document focus state: the id of the element currently holding focus
(`none` stands for `null` / body focus) and the ids of elements attached
to the document. -/
structure DocState where
  activeElement : Option Nat
  inDocument : List Nat
deriving Repr, DecidableEq

/-- `HTMLElement.focus()` semantics: focusing an element attached to the
document moves document focus to it; focusing a detached element does
nothing (and does not throw). -/
def focusId (i : Nat) (doc : DocState) : DocState :=
  if i ∈ doc.inDocument then { doc with activeElement := some i } else doc

/-- The CSS selector from `use-focus-trap.ts` line 13:
`button, [href], input, select, textarea, [tabindex]:not([tabindex="-1"])`.
An element matches when its tag is one of the interactive tags, or it has
an `href` attribute (any element, not only anchors), or it has an explicit
`tabindex` whose value is not the literal `-1`. -/
def matchesFocusableSelector (e : Elem) : Bool :=
  e.tag == "button" || e.hasHref ||
  e.tag == "input" || e.tag == "select" || e.tag == "textarea" ||
  (e.tabindex.isSome && e.tabindex != some (-1))

/-- `element.querySelectorAll(...)` over the container's descendants:
the sub-sequence, in document order, of descendants matching the
focusable selector (`use-focus-trap.ts` lines 12-14). -/
def focusableElements (descendants : List Elem) : List Elem :=
  descendants.filter matchesFocusableSelector

/-- JS strict equality `document.activeElement === boundary` where the
boundary (`firstFocusable` / `lastFocusable`) may be `undefined` (empty
focusable set).  `activeElement` is an element or `null`, never
`undefined`, so the comparison with an `undefined` boundary is always
false. -/
def refEq (activeElement : Option Nat) (boundary : Option Elem) : Bool :=
  match boundary with
  | none => false
  | some b => activeElement == some b.id

/-- A keyboard event as `handleTabKey` inspects it. -/
structure KeyEvent where
  key : String
  shiftKey : Bool
deriving Repr, DecidableEq

/-- Outcome of one run of `handleTabKey`: whether `e.preventDefault()` was
called, whether the handler threw (calling `.focus()` on `undefined`),
and the document state after the run. -/
structure HandlerResult where
  defaultPrevented : Bool
  threw : Bool
  doc : DocState
deriving Repr, DecidableEq

/-- `handleTabKey` from `use-focus-trap.ts` lines 23-40.  `foc` is the
captured `focusableElements` list; `firstFocusable` is its head and
`lastFocusable` its last element (`undefined` when empty).  Non-Tab keys
return immediately.  On Shift+Tab with focus on the first focusable
element, prevent default and focus the last; on plain Tab with focus on
the last, prevent default and focus the first; otherwise do nothing. -/
def handleTabKey (foc : List Elem) (e : KeyEvent) (doc : DocState) : HandlerResult :=
  if e.key != "Tab" then ⟨false, false, doc⟩
  else if e.shiftKey then
    if refEq doc.activeElement foc.head? then
      match foc.getLast? with
      | some l => ⟨true, false, focusId l.id doc⟩
      | none => ⟨true, true, doc⟩
    else ⟨false, false, doc⟩
  else
    if refEq doc.activeElement foc.getLast? then
      match foc.head? with
      | some f => ⟨true, false, focusId f.id doc⟩
      | none => ⟨true, true, doc⟩
    else ⟨false, false, doc⟩

/-- The state captured by one activation of `useFocusTrap`: the closure
variables of the effect (`firstFocusable`, `lastFocusable`,
`lastFocusedElement`) plus the ghost fact that
`element.addEventListener("keydown", handleTabKey)` ran. -/
structure TrapSession where
  firstFocusable : Option Elem
  lastFocusable : Option Elem
  lastFocusedElement : Option Nat
  listenerAttached : Bool
deriving Repr, DecidableEq

/-- The body of the `useFocusTrap` effect (`use-focus-trap.ts` lines
7-51).  If `isActive` is false or the ref is empty, return with no
session.  Otherwise: compute the focusable set, capture its first and
last elements, record `document.activeElement` as the restoration anchor,
call `firstFocusable?.focus()` (a no-op when the set is empty), and
attach the keydown listener — the source has no empty-set early return,
so the listener is attached even for an empty focusable set. -/
def useFocusTrapSetup (isActive : Bool) (refCurrent : Option (List Elem))
    (doc : DocState) : Option TrapSession × DocState :=
  match isActive, refCurrent with
  | true, some descendants =>
    let foc := focusableElements descendants
    let firstFocusable := foc.head?
    let lastFocusable := foc.getLast?
    let lastFocusedElement := doc.activeElement
    let doc1 := match firstFocusable with
      | some f => focusId f.id doc
      | none => doc
    (some ⟨firstFocusable, lastFocusable, lastFocusedElement, true⟩, doc1)
  | _, _ => (none, doc)

/-- Outcome of the effect cleanup: `removeEventListener` ran, whether the
restore call `lastFocusedElement?.focus()` was actually made (it is
guarded only by optional chaining, not by document attachment), and the
document state after. -/
structure CleanupResult where
  listenerRemoved : Bool
  restoreCallMade : Bool
  doc : DocState
deriving Repr, DecidableEq

/-- The cleanup closure returned by the `useFocusTrap` effect
(`use-focus-trap.ts` lines 52-56): remove the keydown listener, then
`lastFocusedElement?.focus()` — the call is made whenever the anchor is
non-null, whether or not the anchor is still in the document; focusing a
detached element is a browser no-op. -/
def useFocusTrapCleanup (s : TrapSession) (doc : DocState) : CleanupResult :=
  match s.lastFocusedElement with
  | some a => ⟨true, true, focusId a doc⟩
  | none => ⟨true, false, doc⟩

/-!
## Focus-trap effect lifecycle

The React effect contract for `useFocusTrap` (dependencies
`[isActive, ref]`): whenever the dependencies change or the owner
unmounts, the previous cycle's cleanup runs to completion before the next
effect body runs.  `FTLife` tracks the keydown listeners attached to
containers (one list entry per attached listener, carrying the container
id), the cleanup registered by the current cycle, and ghost counters of
how many listener-attaching setups and listener-removing cleanups have
run.
-/

/-- Lifecycle state of the `useFocusTrap` effect across re-renders. -/
structure FTLife where
  listeners : List Nat
  cleanupToken : Option Nat
  setups : Nat
  cleanups : Nat
deriving Repr, DecidableEq

/-- Initial lifecycle state: no listener attached, no cleanup pending. -/
def ftInit : FTLife := ⟨[], none, 0, 0⟩

/-- Run the pending cleanup, if the previous cycle registered one: it
calls `element.removeEventListener("keydown", handleTabKey)` on its
captured container, removing exactly the listener that cycle added. -/
def runCleanup (s : FTLife) : FTLife :=
  match s.cleanupToken with
  | some c =>
    { s with listeners := s.listeners.erase c, cleanupToken := none,
             cleanups := s.cleanups + 1 }
  | none => s

/-- The effect body's listener action (`use-focus-trap.ts` lines 8 and
50): when `isActive` is false or the ref is empty, return without
registering a cleanup; otherwise attach one keydown listener to the
container and register the cleanup that will remove it. -/
def effectBody (isActive : Bool) (refCurrent : Option Nat) (s : FTLife) : FTLife :=
  match isActive, refCurrent with
  | true, some c =>
    { s with listeners := c :: s.listeners, cleanupToken := some c,
             setups := s.setups + 1 }
  | _, _ => s

/-- One dependency-change step under React's effect scheduling: the
previous cycle's cleanup completes, then the new effect body runs.  The
event is the new `(isActive, ref.current)` pair. -/
def ftStep (s : FTLife) (ev : Bool × Option Nat) : FTLife :=
  effectBody ev.1 ev.2 (runCleanup s)

/-- The lifecycle state reached after a sequence of dependency-change
events, starting from the initial (unmounted) state. -/
def ftRun (evs : List (Bool × Option Nat)) : FTLife :=
  evs.foldl ftStep ftInit

/-!
## Render Target (Portal)

Embedding of the Portal component as recorded in the repository's
`Portal Component Analysis` document (`src/unnamed/part_008`), the
repository's record of the implementation: the mount-effect container
creation (lines 30-40), the cleanup (lines 52-61) and the render path
(`if (!mounted) return null; ... if (!portalRoot) return null;`,
lines 74-82 / 126-131).

The DOM is the list of portal container nodes attached to
`document.body`, in order, each with its id and its current number of
child nodes.
-/

/-- The portal-relevant DOM: container nodes under `document.body`,
each `(id, childNodes.length)`. -/
structure PDom where
  containers : List (String × Nat)
deriving Repr, DecidableEq

/-- `document.getElementById(containerId)`, returning the node's child
count when the node exists. -/
def getElementByIdCount (containerId : String) (dom : PDom) : Option Nat :=
  (dom.containers.find? (fun p => p.1 == containerId)).map (fun p => p.2)

/-- `document.body.appendChild(portalContainer)` for a freshly created
(childless) `div` carrying the given id. -/
def appendContainer (containerId : String) (dom : PDom) : PDom :=
  ⟨dom.containers ++ [(containerId, 0)]⟩

/-- `document.body.removeChild(existingContainer)`: remove the (first)
container node with the given id. -/
def removeContainer (containerId : String) (dom : PDom) : PDom :=
  ⟨dom.containers.eraseP (fun p => p.1 == containerId)⟩

/-- The Portal mount effect's container-creation logic (part_008 lines
30-40): only when `createElement` is true, look the id up and create and
append a fresh container if absent.  The second component is the ghost
fact "this run created the node" — derived from the branch taken; the
source records no such flag. -/
def portalSetup (containerId : String) (createElement : Bool) (dom : PDom) :
    PDom × Bool :=
  if createElement then
    match getElementByIdCount containerId dom with
    | some _ => (dom, false)
    | none => (appendContainer containerId dom, true)
  else (dom, false)

/-- The Portal cleanup effect (part_008 lines 52-61): only when
`createElement` is true, look the id up and remove the node when it
exists and has no child nodes.  The condition inspects the
`createElement` prop, not whether this instance created the node.  The
second component is the ghost fact "this cleanup removed the node". -/
def portalCleanup (containerId : String) (createElement : Bool) (dom : PDom) :
    PDom × Bool :=
  if createElement then
    match getElementByIdCount containerId dom with
    | some n => if n == 0 then (removeContainer containerId dom, true) else (dom, false)
    | none => (dom, false)
  else (dom, false)

/-- The Portal render path (part_008 lines 74-82 and 126-131):
`if (!mounted) return null;` before any DOM access, then
`document.getElementById(containerId)`, rendering nothing when the node
is absent and otherwise handing the children to `createPortal` targeted
at the node.  Returns the id of the node rendered into (or `none` for
"renders nothing") and the ghost fact "the DOM was accessed". -/
def portalRender (mounted : Bool) (containerId : String) (dom : PDom) :
    Option String × Bool :=
  if mounted = false then (none, false)
  else
    match getElementByIdCount containerId dom with
    | none => (none, true)
    | some _ => (some containerId, true)

/-!
## Spec-side predicates and auxiliary definitions

`specClaimedFocusable` and `amendedFocusable` are statement-side
predicates, written from the spec's words, to be compared with the
selector embedded from the source.  The remaining definitions are
concrete elements, events and identifiers used in witnesses and
counterexamples.
-/

/-- Focusable-set membership as the spec's words state it: interactive
elements (buttons, anchors with a target, inputs, selects, text areas)
or an element with a non-negative explicit tab index — and never an
element carrying a negative explicit tab index. -/
def specClaimedFocusable (e : Elem) : Bool :=
  (e.tag == "button" || (e.tag == "a" && e.hasHref) ||
   e.tag == "input" || e.tag == "select" || e.tag == "textarea" ||
   (match e.tabindex with | some t => decide (0 ≤ t) | none => false)) &&
  !(match e.tabindex with | some t => decide (t < 0) | none => false)

/-- Corrected characterization of the source selector: a button, input,
select or textarea tag, any element bearing an `href` attribute, or an
explicit tab index whose value differs from the literal `-1` (so
negative values other than `-1` are still matched). -/
def amendedFocusable (e : Elem) : Prop :=
  e.tag = "button" ∨ e.hasHref = true ∨ e.tag = "input" ∨
  e.tag = "select" ∨ e.tag = "textarea" ∨
  ∃ t : Int, e.tabindex = some t ∧ t ≠ -1

/-- Lifecycle invariant of the `useFocusTrap` effect: the attached
listeners are exactly the one the pending cleanup will remove, and every
listener-attaching setup except the pending one has been torn down
exactly once. -/
def FTInv (s : FTLife) : Prop :=
  (∀ c, s.cleanupToken = some c → s.listeners = [c]) ∧
  (s.cleanupToken = none → s.listeners = []) ∧
  s.setups = s.cleanups + (if s.cleanupToken.isSome then 1 else 0)

/-- A plain `div` descendant: matches no part of the focusable selector. -/
def divPlain : Elem := ⟨1, "div", false, none⟩

/-- A `div` with explicit `tabindex="-2"`: a negative explicit tab index
that the selector's `:not([tabindex="-1"])` clause does not exclude. -/
def divNeg2 : Elem := ⟨2, "div", false, some (-2)⟩

/-- A button element with id 10. -/
def btn10 : Elem := ⟨10, "button", false, none⟩

/-- A button element with id 20. -/
def btn20 : Elem := ⟨20, "button", false, none⟩

/-- A Tab keydown event with the given shift state. -/
def tabEv (sh : Bool) : KeyEvent := ⟨"Tab", sh⟩

/-- An Escape keydown event (a non-Tab key). -/
def escEv : KeyEvent := ⟨"Escape", false⟩

/-- The default Portal container id. -/
def portalRootId : String := "portal-root"

/-!
## Claim theorems
-/

/-- C1: for an activation with a live container whose focusable set is
empty, the source does not throw, leaves document focus unchanged and
skips focus placement — but, lacking the documented
`if (!firstFocusable) return;` guard, it still attaches the keydown
listener for the cycle (`listenerAttached = true` in the resulting
session), contradicting the claim that no keydown listener is attached.
The attached handler is inert: a Tab keydown changes nothing. -/
theorem c1_empty_set_still_attaches_listener :
    focusableElements [divPlain] = [] ∧
    useFocusTrapSetup true (some [divPlain]) ⟨some 9, [9, 1]⟩ =
      (some ⟨none, none, some 9, true⟩, ⟨some 9, [9, 1]⟩) ∧
    handleTabKey (focusableElements [divPlain]) (tabEv false) ⟨some 9, [9, 1]⟩ =
      ⟨false, false, ⟨some 9, [9, 1]⟩⟩ ∧
    handleTabKey (focusableElements [divPlain]) (tabEv true) ⟨some 9, [9, 1]⟩ =
      ⟨false, false, ⟨some 9, [9, 1]⟩⟩ := by
  decide

/-- C2 counterexample: the container node `#portal-root` pre-exists (this
consumer's setup reports it created nothing), yet because the cleanup
condition tests the `createElement` prop rather than actual creation,
teardown removes the pre-existing empty node this instance did not
create. -/
theorem c2_removes_node_it_did_not_create :
    portalSetup portalRootId true ⟨[(portalRootId, 0)]⟩ = (⟨[(portalRootId, 0)]⟩, false) ∧
    portalCleanup portalRootId true ⟨[(portalRootId, 0)]⟩ = (⟨[]⟩, true) := by
  decide

/-- C2 amended: at teardown a consumer removes the backing node exactly
when its `createElement` flag is true and the node exists with zero
children; a node that still has children is never removed, and a
consumer with `createElement = false` never removes — but a
`createElement = true` consumer may remove an empty node it did not
itself create. -/
theorem c2_amended_cleanup_condition (containerId : String) (createElement : Bool)
    (dom : PDom) :
    ((portalCleanup containerId createElement dom).2 = true ↔
      createElement = true ∧ getElementByIdCount containerId dom = some 0) ∧
    (∀ n, getElementByIdCount containerId dom = some n → 0 < n →
      portalCleanup containerId createElement dom = (dom, false)) ∧
    (createElement = false → portalCleanup containerId createElement dom = (dom, false)) := by
  cases createElement with
  | false => simp [portalCleanup]
  | true =>
    cases h : getElementByIdCount containerId dom with
    | none => simp [portalCleanup, h]
    | some n =>
      cases n with
      | zero => simp [portalCleanup, h]
      | succ m => simp [portalCleanup, h]

/-- C2 witness: a consumer with `createElement = false` leaves a childful
shared node alone at teardown. -/
theorem c2_amended_cleanup_condition_witness :
    portalCleanup portalRootId false ⟨[(portalRootId, 2)]⟩ = (⟨[(portalRootId, 2)]⟩, false) :=
  (c2_amended_cleanup_condition portalRootId false ⟨[(portalRootId, 2)]⟩).2.2 rfl

/-- C3 counterexample: activation over a one-button container records
anchor 5 and focuses the button; at teardown the anchor element 5 is no
longer in the document, yet the cleanup still makes the restore call
(`restoreCallMade = true`) — it is not skipped; the call is merely a
browser no-op, leaving the document state unchanged. -/
theorem c3_restore_call_not_skipped :
    useFocusTrapSetup true (some [btn10]) ⟨some 5, [5, 10]⟩ =
      (some ⟨some btn10, some btn10, some 5, true⟩, ⟨some 10, [5, 10]⟩) ∧
    ¬ (5 ∈ ([10] : List Nat)) ∧
    useFocusTrapCleanup ⟨some btn10, some btn10, some 5, true⟩ ⟨some 10, [10]⟩ =
      ⟨true, true, ⟨some 10, [10]⟩⟩ := by
  decide

/-- C3 amended: for every activation/deactivation cycle, deactivation
removes the key-down listener and restores focus to exactly the element
that held focus immediately before activation when that element is still
attached to the document; when the anchor is detached the restore call
is still made but has no effect (focusing a detached element is a
browser no-op), so deactivation does not fail and the document state is
unchanged; a null anchor skips the call. -/
theorem c3_amended_cleanup_restore (descendants : List Elem) (doc docT : DocState)
    (s : TrapSession)
    (hs : (useFocusTrapSetup true (some descendants) doc).1 = some s) :
    (useFocusTrapCleanup s docT).listenerRemoved = true ∧
    (∀ a, doc.activeElement = some a → a ∈ docT.inDocument →
      (useFocusTrapCleanup s docT).doc.activeElement = some a ∧
      (useFocusTrapCleanup s docT).restoreCallMade = true) ∧
    (∀ a, doc.activeElement = some a → a ∉ docT.inDocument →
      (useFocusTrapCleanup s docT).doc = docT ∧
      (useFocusTrapCleanup s docT).restoreCallMade = true) ∧
    (doc.activeElement = none →
      (useFocusTrapCleanup s docT).doc = docT ∧
      (useFocusTrapCleanup s docT).restoreCallMade = false) := by
  simp only [useFocusTrapSetup, Option.some.injEq] at hs
  subst hs
  refine ⟨?_, ?_, ?_, ?_⟩
  · cases ha : doc.activeElement <;> simp [useFocusTrapCleanup, ha]
  · intro a ha hin
    simp [useFocusTrapCleanup, ha, focusId, hin]
  · intro a ha hout
    simp [useFocusTrapCleanup, ha, focusId, hout]
  · intro ha
    simp [useFocusTrapCleanup, ha]

/-- C3 amended witness: with anchor 5 still attached at teardown, the
cleanup restores focus to element 5. -/
theorem c3_amended_cleanup_restore_witness :
    (useFocusTrapCleanup ⟨some btn10, some btn10, some 5, true⟩
      ⟨some 10, [5, 10]⟩).doc.activeElement = some 5 :=
  ((c3_amended_cleanup_restore [btn10] ⟨some 5, [5, 10]⟩ ⟨some 10, [5, 10]⟩
      ⟨some btn10, some btn10, some 5, true⟩ (by decide)).2.1 5 rfl (by decide)).1

/-- C4: while the trap is active over a container with at least one
focusable descendant, Shift+Tab with focus on the first focusable
element prevents default and moves focus to the last; plain Tab with
focus on the last prevents default and moves focus to the first; and
every other Tab press is left untouched — no preventDefault, no focus
change. -/
theorem c4_tab_boundary_wrapping (descendants : List Elem) (doc : DocState) (f l : Elem)
    (hf : (focusableElements descendants).head? = some f)
    (hl : (focusableElements descendants).getLast? = some l)
    (hfd : f.id ∈ doc.inDocument) (hld : l.id ∈ doc.inDocument) :
    (doc.activeElement = some f.id →
      handleTabKey (focusableElements descendants) (tabEv true) doc =
        ⟨true, false, { doc with activeElement := some l.id }⟩) ∧
    (doc.activeElement = some l.id →
      handleTabKey (focusableElements descendants) (tabEv false) doc =
        ⟨true, false, { doc with activeElement := some f.id }⟩) ∧
    (∀ sh : Bool, (sh = true → doc.activeElement ≠ some f.id) →
      (sh = false → doc.activeElement ≠ some l.id) →
      handleTabKey (focusableElements descendants) (tabEv sh) doc =
        ⟨false, false, doc⟩) := by
  refine ⟨?_, ?_, ?_⟩
  · intro ha
    simp [handleTabKey, tabEv, refEq, hf, hl, ha, focusId, hld]
  · intro ha
    simp [handleTabKey, tabEv, refEq, hf, hl, ha, focusId, hfd]
  · intro sh h1 h2
    cases sh with
    | true => simp [handleTabKey, tabEv, refEq, hf, h1 rfl]
    | false => simp [handleTabKey, tabEv, refEq, hl, h2 rfl]

/-- C4 witness: on a two-button container with focus on the first button,
Shift+Tab prevents default and moves focus to the last button. -/
theorem c4_tab_boundary_wrapping_witness :
    handleTabKey (focusableElements [btn10, btn20]) (tabEv true) ⟨some 10, [10, 20]⟩ =
      ⟨true, false, ⟨some 20, [10, 20]⟩⟩ :=
  (c4_tab_boundary_wrapping [btn10, btn20] ⟨some 10, [10, 20]⟩ btn10 btn20
    (by decide) (by decide) (by decide) (by decide)).1 rfl

/-- C5: activating the Focus Scope over a container with at least one
focusable descendant moves document focus to the first element of the
focusable set, and the restoration anchor recorded in the session is the
element that held focus before this move (the pre-activation
`document.activeElement`), not the newly focused element. -/
theorem c5_activation_focuses_first (descendants : List Elem) (doc : DocState) (f : Elem)
    (hf : (focusableElements descendants).head? = some f)
    (hfd : f.id ∈ doc.inDocument) :
    (useFocusTrapSetup true (some descendants) doc).2.activeElement = some f.id ∧
    ∀ s, (useFocusTrapSetup true (some descendants) doc).1 = some s →
      s.lastFocusedElement = doc.activeElement ∧ s.firstFocusable = some f := by
  constructor
  · simp [useFocusTrapSetup, hf, focusId, hfd]
  · intro s hs
    simp only [useFocusTrapSetup, Option.some.injEq] at hs
    subst hs
    exact ⟨rfl, hf⟩

/-- C5 witness: activating over a one-button container with prior focus
on element 5 focuses the button and records 5 as the anchor. -/
theorem c5_activation_focuses_first_witness :
    (useFocusTrapSetup true (some [btn10]) ⟨some 5, [5, 10]⟩).2.activeElement = some 10 :=
  (c5_activation_focuses_first [btn10] ⟨some 5, [5, 10]⟩ btn10 (by decide) (by decide)).1

/-- C9: when the focusable set is a single element, the first and last
focusable references coincide, and both Tab and Shift+Tab pressed while
that element holds focus prevent default and re-focus the same element,
so focus never leaves it. -/
theorem c9_singleton_set_traps_focus (descendants : List Elem) (e : Elem) (doc : DocState)
    (h1 : focusableElements descendants = [e])
    (hd : e.id ∈ doc.inDocument)
    (ha : doc.activeElement = some e.id) :
    (focusableElements descendants).head? = (focusableElements descendants).getLast? ∧
    ∀ sh : Bool, handleTabKey (focusableElements descendants) (tabEv sh) doc =
      ⟨true, false, { doc with activeElement := some e.id }⟩ := by
  rw [h1]
  constructor
  · rfl
  · intro sh
    cases sh <;> simp [handleTabKey, tabEv, refEq, ha, focusId, hd]

/-- C9 witness: a Tab press with focus on the lone button re-focuses that
button with default prevented. -/
theorem c9_singleton_set_traps_focus_witness :
    handleTabKey (focusableElements [btn10]) (tabEv false) ⟨some 10, [10]⟩ =
      ⟨true, false, ⟨some 10, [10]⟩⟩ :=
  (c9_singleton_set_traps_focus [btn10] btn10 ⟨some 10, [10]⟩
    (by decide) (by decide) rfl).2 false

/-- C10: the handler is a no-op outside its two wrap cases — if the key
is not Tab, or shift is held while focus is not on the first focusable
element, or shift is not held while focus is not on the last, then the
handler neither prevents default nor moves focus nor throws. -/
theorem c10_handler_frame_condition (foc : List Elem) (e : KeyEvent) (doc : DocState)
    (h : e.key ≠ "Tab" ∨
      (e.shiftKey = true ∧ ∀ f, foc.head? = some f → doc.activeElement ≠ some f.id) ∨
      (e.shiftKey = false ∧ ∀ l, foc.getLast? = some l → doc.activeElement ≠ some l.id)) :
    handleTabKey foc e doc = ⟨false, false, doc⟩ := by
  by_cases hk : e.key = "Tab"
  · rcases h with h | ⟨hsh, hb⟩ | ⟨hsh, hb⟩
    · exact absurd hk h
    · cases hfo : foc.head? with
      | none => simp [handleTabKey, hk, hsh, refEq, hfo]
      | some f => simp [handleTabKey, hk, hsh, refEq, hfo, hb f hfo]
    · cases hlo : foc.getLast? with
      | none => simp [handleTabKey, hk, hsh, refEq, hlo]
      | some l => simp [handleTabKey, hk, hsh, refEq, hlo, hb l hlo]
  · simp [handleTabKey, hk]

/-- C10 witness: an Escape keydown leaves the handler inert on a
one-button container. -/
theorem c10_handler_frame_condition_witness :
    handleTabKey (focusableElements [btn10]) escEv ⟨some 10, [10]⟩ =
      ⟨false, false, ⟨some 10, [10]⟩⟩ :=
  c10_handler_frame_condition (focusableElements [btn10]) escEv ⟨some 10, [10]⟩
    (Or.inl (by decide))

/-- C6 counterexample: a plain `div` with explicit `tabindex="-2"` — a
non-interactive element with a negative explicit tab index — is matched
by the source selector (its `:not` clause only excludes the literal
`-1`) and so lands in the computed focusable set, though the claimed set
excludes it. -/
theorem c6_negative_tabindex_included :
    focusableElements [divNeg2] = [divNeg2] ∧
    specClaimedFocusable divNeg2 = false := by
  decide

/-- The source selector matches exactly the elements satisfying the
corrected characterization. -/
theorem matchesFocusableSelector_iff (e : Elem) :
    matchesFocusableSelector e = true ↔ amendedFocusable e := by
  obtain ⟨i, tg, hh, ti⟩ := e
  cases ti with
  | none =>
    simp only [matchesFocusableSelector, amendedFocusable]
    simp
    tauto
  | some t =>
    simp only [matchesFocusableSelector, amendedFocusable]
    simp
    tauto

/-- C6 amended: the focusable set computed at activation is the
sub-sequence, in document order, of the container's descendants that are
buttons, inputs, selects or text areas, carry an `href` attribute (any
element, not only anchors), or carry an explicit tab index other than
the literal `-1` — so elements with negative explicit tab indexes other
than `-1` are included, as are interactive elements whose tab index is
`-1`. -/
theorem c6_amended_selector_characterization (descendants : List Elem) :
    (focusableElements descendants).Sublist descendants ∧
    ∀ e : Elem, e ∈ focusableElements descendants ↔
      e ∈ descendants ∧ amendedFocusable e := by
  constructor
  · exact List.filter_sublist descendants
  · intro e
    rw [focusableElements, List.mem_filter, matchesFocusableSelector_iff]

/-- C6 amended witness: the button is in the focusable set of a container
holding a tabindex -2 div and a button. -/
theorem c6_amended_selector_characterization_witness :
    btn10 ∈ focusableElements [divNeg2, btn10] :=
  ((c6_amended_selector_characterization [divNeg2, btn10]).2 btn10).mpr
    ⟨by decide, Or.inl rfl⟩

/-- The lifecycle invariant holds in the initial state. -/
theorem ftInv_init : FTInv ftInit := by
  refine ⟨?_, ?_, rfl⟩ <;> simp [ftInit]

/-- After the pending cleanup runs, no listener remains, no cleanup is
pending, and every listener-attaching setup has been torn down exactly
once. -/
theorem runCleanup_resolves (s : FTLife) (hv : FTInv s) :
    (runCleanup s).listeners = [] ∧ (runCleanup s).cleanupToken = none ∧
    (runCleanup s).setups = (runCleanup s).cleanups := by
  obtain ⟨h1, h2, h3⟩ := hv
  cases ht : s.cleanupToken with
  | none =>
    simp [ht] at h3
    simp [runCleanup, ht, h2 ht, h3]
  | some c =>
    simp [ht] at h3
    simp [runCleanup, ht, h1 c ht]
    omega

/-- One dependency-change step (cleanup of the previous cycle, then the
new effect body) preserves the lifecycle invariant. -/
theorem ftInv_step (s : FTLife) (hv : FTInv s) (ev : Bool × Option Nat) :
    FTInv (ftStep s ev) := by
  obtain ⟨hl, ht, hc⟩ := runCleanup_resolves s hv
  obtain ⟨b, r⟩ := ev
  cases b with
  | false =>
    cases r <;> exact ⟨by intro c hd; simp [ftStep, effectBody, ht] at hd,
      fun _ => by simp [ftStep, effectBody, hl],
      by simp [ftStep, effectBody, ht, hc]⟩
  | true =>
    cases r with
    | none =>
      exact ⟨by intro c hd; simp [ftStep, effectBody, ht] at hd,
        fun _ => by simp [ftStep, effectBody, hl],
        by simp [ftStep, effectBody, ht, hc]⟩
    | some c =>
      refine ⟨?_, ?_, ?_⟩
      · intro d hd
        simp [ftStep, effectBody] at hd ⊢
        simp [hl, ← hd]
      · intro hd
        simp [ftStep, effectBody] at hd
      · simp [ftStep, effectBody, hc]

/-- The lifecycle invariant is preserved along any event suffix. -/
theorem ftInv_fold (s : FTLife) (hv : FTInv s) (evs : List (Bool × Option Nat)) :
    FTInv (evs.foldl ftStep s) := by
  induction evs generalizing s with
  | nil => exact hv
  | cons ev rest ih => exact ih (ftStep s ev) (ftInv_step s hv ev)

/-- The lifecycle invariant holds after any event sequence. -/
theorem ftInv_run (evs : List (Bool × Option Nat)) : FTInv (ftRun evs) :=
  ftInv_fold ftInit ftInv_init evs

/-- C7: in every state reachable by dependency-change events (teardown of
cycle N completing before setup of cycle N+1, per the React effect
contract), at most one keydown listener is attached; every
listener-attaching setup except the currently pending one has been torn
down exactly once; and after a deactivating event, or an event changing
the container, no listener from a previous session persists. -/
theorem c7_listener_lifecycle (evs : List (Bool × Option Nat)) :
    (ftRun evs).listeners.length ≤ 1 ∧
    (ftRun evs).setups = (ftRun evs).cleanups +
      (if (ftRun evs).cleanupToken.isSome then 1 else 0) ∧
    (∀ c, (ftRun evs).cleanupToken = some c → (ftRun evs).listeners = [c]) ∧
    ((ftRun evs).cleanupToken = none → (ftRun evs).listeners = []) ∧
    (∀ ev : Bool × Option Nat, ev.1 = false ∨ ev.2 = none →
      (ftRun (evs ++ [ev])).listeners = []) ∧
    (∀ c : Nat, (ftRun (evs ++ [(true, some c)])).listeners = [c]) := by
  obtain ⟨h1, h2, h3⟩ := ftInv_run evs
  have happ : ∀ ev : Bool × Option Nat, ftRun (evs ++ [ev]) = ftStep (ftRun evs) ev := by
    intro ev
    simp [ftRun, List.foldl_append]
  obtain ⟨hl, ht, hc⟩ := runCleanup_resolves (ftRun evs) ⟨h1, h2, h3⟩
  refine ⟨?_, h3, h1, h2, ?_, ?_⟩
  · cases htk : (ftRun evs).cleanupToken with
    | none => simp [h2 htk]
    | some c => simp [h1 c htk]
  · intro ev hev
    rw [happ ev]
    obtain ⟨b, r⟩ := ev
    rcases hev with hb | hr
    · simp only at hb
      subst hb
      cases r <;> simp [ftStep, effectBody, hl]
    · simp only at hr
      subst hr
      cases b <;> simp [ftStep, effectBody, hl]
  · intro c
    rw [happ (true, some c)]
    simp [ftStep, effectBody, hl]

/-- C7 witness: a rapid activate→deactivate toggle leaves no listener
attached. -/
theorem c7_listener_lifecycle_witness :
    (ftRun [(true, some 3), (false, none)]).listeners = [] :=
  (c7_listener_lifecycle [(true, some 3)]).2.2.2.2.1 (false, none) (Or.inl rfl)

/-- C8: with no node carrying the target id and creation disabled, the
Portal's setup changes nothing and its render produces nothing (an
explicit not-found outcome, not an error); and before the client-side
mount is confirmed, the render produces nothing and performs no DOM
access at all. -/
theorem c8_missing_target_and_premount (containerId : String) (dom : PDom)
    (hmiss : getElementByIdCount containerId dom = none) :
    portalSetup containerId false dom = (dom, false) ∧
    portalRender true containerId dom = (none, true) ∧
    (∀ (d : PDom) (i : String), portalRender false i d = (none, false)) := by
  refine ⟨by simp [portalSetup], by simp [portalRender, hmiss],
    fun d i => by simp [portalRender]⟩

/-- C8 witness: rendering into an empty document with creation disabled
produces nothing. -/
theorem c8_missing_target_and_premount_witness :
    portalRender true portalRootId ⟨[]⟩ = (none, true) :=
  (c8_missing_target_and_premount portalRootId ⟨[]⟩ rfl).2.1

